import Mathlib

/-!
Verification of the generation/edit orchestration core of the asset-generator
application against its specification.  Each definition is a shallow embedding
of a function from the TypeScript source; theorems settle the spec claims.
-/

namespace AssetGen

/-! ## Data model: history entries (src/types.ts, src/store/slices/historySlice.ts)

A history entry as created by the generation modes: id (creation-order unique,
Date.now based), kind ('template' | 'final' | 'direct'), image, prompt,
negative prompt, timestamp, aspect ratio. -/

structure HistoryItem where
  id : Nat
  kind : String
  image : String
  prompt : String
  negPrompt : String
  timestamp : Nat
  aspectRatio : String
deriving DecidableEq, Repr

/-- Embedding of the history append operation.  Both implementations prepend
the new items and truncate: the store slice uses
`[...itemsToAdd, ...state.history].slice(0, 50)`
(src/store/slices/historySlice.ts, addToHistory) and the component variants use
`[...newHistoryItems, ...prev].slice(0, 5)`
(src/components/direct/DirectGenerationMode.tsx line 143,
src/components/composition/CompositionMode.tsx lines 236 and 252).
JS `slice(0, cap)` on an array is `List.take cap`. -/
def historyAppend (cap : Nat) (newItems history : List HistoryItem) : List HistoryItem :=
  (newItems ++ history).take cap

/-- `addToHistory` of the Zustand history slice: prepend then truncate to 50
(src/store/slices/historySlice.ts lines 24-27). -/
def addToHistory (newItems history : List HistoryItem) : List HistoryItem :=
  historyAppend 50 newItems history

/-- The history update performed by DirectGenerationMode's success effect:
prepend the batch then truncate to 5
(src/components/direct/DirectGenerationMode.tsx lines 131-145). -/
def directModeHistoryAppend (newItems history : List HistoryItem) : List HistoryItem :=
  historyAppend 5 newItems history

/-- `deleteHistoryItem` filters out the entries whose id equals the given id:
`state.history.filter(item => item.id !== id)`
(src/store/slices/historySlice.ts lines 29-31). -/
def deleteHistoryItem (id : Nat) (history : List HistoryItem) : List HistoryItem :=
  history.filter (fun item => item.id != id)

/-- `clearHistory` resets the collection to the empty array
(src/store/slices/historySlice.ts line 33). -/
def clearHistory : List HistoryItem := []

/-! ## Recent-prompt insert (src/store/slices/compositionSlice part,
src/components/composition/CompositionMode.tsx, DirectGenerationMode.tsx)

All variants share the shape
`[prompt, ...prev.filter(p => p !== prompt)].slice(0, cap)`. -/

/-- Recent-prompt insert: remove every occurrence of the exact string, prepend
it, truncate to the cap. -/
def recentPromptInsert (cap : Nat) (prompt : String) (prompts : List String) :
    List String :=
  (prompt :: prompts.filter (fun p => p != prompt)).take cap

/-- `addRecentTemplatePrompt` of the composition store slice, cap 10
(src/store/slices, createCompositionSlice lines 96-98). -/
def addRecentTemplatePrompt (prompt : String) (prompts : List String) : List String :=
  recentPromptInsert 10 prompt prompts

/-- `addRecentSubjectPrompt` of the composition store slice, cap 10
(createCompositionSlice lines 99-101). -/
def addRecentSubjectPrompt (prompt : String) (prompts : List String) : List String :=
  recentPromptInsert 10 prompt prompts

/-- The recent-prompt update performed inside CompositionMode's success
effects, cap 5 (src/components/composition/CompositionMode.tsx lines 204-220). -/
def compRecentPromptInsert (prompt : String) (prompts : List String) : List String :=
  recentPromptInsert 5 prompt prompts

/-! ## Helper lemmas (shared) -/

theorem length_filter_lt_of_mem {α : Type} (p : α → Bool) {l : List α} {x : α}
    (hx : x ∈ l) (hpx : p x = false) : (l.filter p).length < l.length := by
  induction l with
  | nil => cases hx
  | cons a t ih =>
    rcases List.mem_cons.mp hx with rfl | hmem
    · rw [List.filter_cons, if_neg (by simp [hpx])]
      exact Nat.lt_succ_of_le (List.length_filter_le p t)
    · rw [List.filter_cons]
      by_cases hpa : p a = true
      · rw [if_pos (by simp [hpa]), List.length_cons, List.length_cons]
        exact Nat.succ_lt_succ (ih hmem)
      · rw [if_neg (by simpa using hpa)]
        exact Nat.lt_trans (ih hmem) (Nat.lt_succ_self _)

theorem recentPromptInsert_spec (cap : Nat) (prompt : String) (prompts : List String)
    (hcap : 0 < cap) (hmem : prompt ∈ prompts) :
    (recentPromptInsert cap prompt prompts).length ≤ prompts.length ∧
    (recentPromptInsert cap prompt prompts).head? = some prompt ∧
    (prompts.Nodup → (recentPromptInsert cap prompt prompts).Nodup) := by
  refine ⟨?_, ?_, ?_⟩
  · calc (recentPromptInsert cap prompt prompts).length
        ≤ (prompt :: prompts.filter (fun p => p != prompt)).length :=
          (List.take_sublist _ _).length_le
    _ = (prompts.filter (fun p => p != prompt)).length + 1 := by
          rw [List.length_cons]
    _ ≤ prompts.length := by
          have h : (prompts.filter (fun p => p != prompt)).length < prompts.length :=
            length_filter_lt_of_mem _ hmem (by simp)
          omega
  · obtain ⟨k, rfl⟩ := Nat.exists_eq_succ_of_ne_zero (Nat.pos_iff_ne_zero.mp hcap)
    rw [recentPromptInsert, List.take_succ_cons, List.head?_cons]
  · intro hnd
    refine List.Sublist.nodup (List.take_sublist _ _) (List.nodup_cons.mpr ⟨?_, hnd.filter _⟩)
    intro hmemf
    have := (List.mem_filter.mp hmemf).2
    simp at this

/-- C7: inserting a string already present in a recent-prompt list does not
grow the list, moves the string to the front, and keeps the list free of
duplicates (recent-prompt lists are duplicate-free by construction, so the
no-duplicates conclusion is stated under that invariant).  Covers both the
cap-10 store-slice insert and the cap-5 CompositionMode insert. -/
theorem recent_prompt_insert_mru (prompt : String) (prompts : List String)
    (hmem : prompt ∈ prompts) :
    ((addRecentTemplatePrompt prompt prompts).length ≤ prompts.length ∧
      (addRecentTemplatePrompt prompt prompts).head? = some prompt ∧
      (prompts.Nodup → (addRecentTemplatePrompt prompt prompts).Nodup)) ∧
    ((compRecentPromptInsert prompt prompts).length ≤ prompts.length ∧
      (compRecentPromptInsert prompt prompts).head? = some prompt ∧
      (prompts.Nodup → (compRecentPromptInsert prompt prompts).Nodup)) :=
  ⟨recentPromptInsert_spec 10 prompt prompts (by omega) hmem,
   recentPromptInsert_spec 5 prompt prompts (by omega) hmem⟩

/-- Witness for C7 at a concrete input: inserting "a" into ["b", "a"]. -/
theorem recent_prompt_insert_mru_witness :
    "a" ∈ ["b", "a"] ∧
    (((addRecentTemplatePrompt "a" ["b", "a"]).length ≤ (["b", "a"] : List String).length ∧
      (addRecentTemplatePrompt "a" ["b", "a"]).head? = some "a" ∧
      ((["b", "a"] : List String).Nodup → (addRecentTemplatePrompt "a" ["b", "a"]).Nodup)) ∧
    ((compRecentPromptInsert "a" ["b", "a"]).length ≤ (["b", "a"] : List String).length ∧
      (compRecentPromptInsert "a" ["b", "a"]).head? = some "a" ∧
      ((["b", "a"] : List String).Nodup → (compRecentPromptInsert "a" ["b", "a"]).Nodup))) :=
  ⟨by decide, recent_prompt_insert_mru "a" ["b", "a"] (by decide)⟩

/-- Newest-first ordering on history entries: an earlier element of the list
has a timestamp at least as large as a later one. -/
abbrev NewestFirst (l : List HistoryItem) : Prop :=
  l.Pairwise (fun a b => b.timestamp ≤ a.timestamp)

/-- C8: the history append prepends the new entries and truncates to the cap,
for every batch and every prior history: every entry of the result is one of
the original (unmutated) entries; the result's length is the cap whenever the
combined existing-plus-new total exceeds it (and the total otherwise); below
the cap boundary the result agrees pointwise with the prepended combination,
so the new entries come first in their order followed by the prior entries;
when the cap is at most the number of new entries the result is exactly the
cap-many most recent new entries; and if the combined list is newest-first
the result is newest-first and every entry dropped by the truncation is no
newer than any kept entry — together: the cap-many most recent entries,
newest first.  Stated for the generic cap; `addToHistory` is
`historyAppend 50` and `directModeHistoryAppend` is `historyAppend 5`. -/
theorem history_append_cap (cap : Nat) (newItems history : List HistoryItem) :
    (∀ x ∈ historyAppend cap newItems history, x ∈ newItems ++ history) ∧
    (historyAppend cap newItems history).length = min cap (newItems ++ history).length ∧
    (∀ i, i < cap →
      (historyAppend cap newItems history)[i]? = (newItems ++ history)[i]?) ∧
    (cap ≤ newItems.length → historyAppend cap newItems history = newItems.take cap) ∧
    (NewestFirst (newItems ++ history) →
      NewestFirst (historyAppend cap newItems history) ∧
      ∀ x ∈ historyAppend cap newItems history,
        ∀ y ∈ (newItems ++ history).drop cap, y.timestamp ≤ x.timestamp) := by
  refine ⟨?_, List.length_take cap (newItems ++ history), ?_, ?_, ?_⟩
  · intro x hx
    exact (List.take_sublist _ _).mem hx
  · intro i hi
    exact List.getElem?_take_of_lt hi
  · intro hlen
    exact List.take_append_of_le_length hlen
  · intro hsorted
    constructor
    · exact List.Pairwise.sublist (List.take_sublist _ _) hsorted
    · intro x hx y hy
      have hsplit := hsorted
      rw [← List.take_append_drop cap (newItems ++ history)] at hsplit
      exact (List.pairwise_append.mp hsplit).2.2 x hx y hy

/-- A fixed concrete batch of six history entries, used by the C8 witness. -/
def demoBatch : List HistoryItem :=
  [⟨6, "direct", "i6", "p", "n", 6, "1:1"⟩,
   ⟨5, "direct", "i5", "p", "n", 5, "1:1"⟩,
   ⟨4, "direct", "i4", "p", "n", 4, "1:1"⟩,
   ⟨3, "direct", "i3", "p", "n", 3, "1:1"⟩,
   ⟨2, "direct", "i2", "p", "n", 2, "1:1"⟩,
   ⟨1, "direct", "i1", "p", "n", 1, "1:1"⟩]

/-- A fixed concrete prior history with one older entry, used by the C8
witness. -/
def demoOld : List HistoryItem := [⟨0, "direct", "i0", "p", "n", 0, "1:1"⟩]

/-- Witness for C8 at two concrete inputs: the component cap 5 with 6 new
entries over a 1-entry history (the combined total 7 exceeds the cap), and the
program's ordinary small-batch case, a 2-entry batch over the same history
below the cap. -/
theorem history_append_cap_witness :
    NewestFirst (demoBatch ++ demoOld) ∧ 5 ≤ demoBatch.length ∧ (3 : Nat) < 5 ∧
    (historyAppend 5 demoBatch demoOld).length = min 5 (demoBatch ++ demoOld).length ∧
    (historyAppend 5 demoBatch demoOld)[3]? = (demoBatch ++ demoOld)[3]? ∧
    historyAppend 5 demoBatch demoOld = demoBatch.take 5 ∧
    (NewestFirst (historyAppend 5 demoBatch demoOld) ∧
      ∀ x ∈ historyAppend 5 demoBatch demoOld,
        ∀ y ∈ (demoBatch ++ demoOld).drop 5, y.timestamp ≤ x.timestamp) ∧
    NewestFirst (historyAppend 50 (demoBatch.take 2) demoOld) := by
  have hs : NewestFirst (demoBatch ++ demoOld) := by decide
  have hs2 : NewestFirst (demoBatch.take 2 ++ demoOld) := by decide
  exact ⟨hs, by decide, by decide,
    (history_append_cap 5 demoBatch demoOld).2.1,
    (history_append_cap 5 demoBatch demoOld).2.2.1 3 (by decide),
    (history_append_cap 5 demoBatch demoOld).2.2.2.1 (by decide),
    (history_append_cap 5 demoBatch demoOld).2.2.2.2 hs,
    ((history_append_cap 50 (demoBatch.take 2) demoOld).2.2.2.2 hs2).1⟩

theorem filter_ne_id_eq_self {history : List HistoryItem} {id : Nat}
    (h : ∀ e ∈ history, e.id ≠ id) :
    history.filter (fun item => item.id != id) = history := by
  apply List.filter_eq_self.mpr
  intro a ha
  simpa using h a ha

theorem delete_exactly_one {history : List HistoryItem} {id : Nat}
    (hnd : (history.map HistoryItem.id).Nodup) {e : HistoryItem}
    (he : e ∈ history) (hid : e.id = id) :
    (history.filter (fun item => item.id != id)).length + 1 = history.length := by
  induction history with
  | nil => cases he
  | cons a t ih =>
    have hnd' : (t.map HistoryItem.id).Nodup := (List.nodup_cons.mp hnd).2
    have hnotin : a.id ∉ t.map HistoryItem.id := (List.nodup_cons.mp hnd).1
    by_cases ha : a.id = id
    · rw [List.filter_cons, if_neg (by simp [ha])]
      have hall : ∀ x ∈ t, x.id ≠ id := by
        intro x hx hxe
        exact hnotin (List.mem_map.mpr ⟨x, hx, by rw [hxe, ha]⟩)
      rw [filter_ne_id_eq_self hall, List.length_cons]
    · have het : e ∈ t := by
        rcases List.mem_cons.mp he with rfl | h
        · exact absurd hid ha
        · exact h
      rw [List.filter_cons, if_pos (by simp [ha]), List.length_cons, List.length_cons]
      have hlen := ih hnd' het
      omega

/-- C9: delete-by-id keeps a subsequence of the original list (no entry is
mutated, relative order preserved), keeps every entry whose id differs from the
target, removes every entry carrying the target id, and — when the ids are
pairwise distinct — removes exactly one entry if one with the target id is
present; clear yields the empty collection. -/
theorem delete_by_id_and_clear (id : Nat) (history : List HistoryItem) :
    (deleteHistoryItem id history).Sublist history ∧
    (∀ e ∈ history, e.id ≠ id → e ∈ deleteHistoryItem id history) ∧
    (∀ e ∈ deleteHistoryItem id history, e.id ≠ id) ∧
    ((history.map HistoryItem.id).Nodup → ∀ e ∈ history, e.id = id →
      (deleteHistoryItem id history).length + 1 = history.length) ∧
    clearHistory = [] := by
  refine ⟨List.filter_sublist history, ?_, ?_, ?_, rfl⟩
  · intro e he hne
    exact List.mem_filter.mpr ⟨he, by simpa using hne⟩
  · intro e he
    have := (List.mem_filter.mp he).2
    simpa using this
  · intro hnd e he hid
    exact delete_exactly_one hnd he hid

/-- Witness for C9 at a concrete input: deleting id 2 from a three-entry
history with distinct ids. -/
theorem delete_by_id_and_clear_witness :
    ((demoBatch.take 3).map HistoryItem.id).Nodup ∧
    (⟨5, "direct", "i5", "p", "n", 5, "1:1"⟩ : HistoryItem) ∈ demoBatch.take 3 ∧
    (deleteHistoryItem 5 (demoBatch.take 3)).Sublist (demoBatch.take 3) ∧
    (deleteHistoryItem 5 (demoBatch.take 3)).length + 1 = (demoBatch.take 3).length :=
  ⟨by decide, by decide,
   (delete_by_id_and_clear 5 (demoBatch.take 3)).1,
   (delete_by_id_and_clear 5 (demoBatch.take 3)).2.2.2.1 (by decide)
     ⟨5, "direct", "i5", "p", "n", 5, "1:1"⟩ (by decide) (by decide)⟩

/-! ## External generation responses (src/lib/gemini-api.ts)

A Gemini generateContent response is consumed by scanning
`response.candidates[0].content.parts` for the first part carrying
`inlineData`.  A part either carries inline image data or text. -/

inductive GenPart where
  | inlineData (data : String)
  | textPart (t : String)
deriving DecidableEq, Repr

/-- The scan loop shared by the gemini-api functions: return the data URL of
the first inlineData part, or null (none) if no part carries an image
(src/lib/gemini-api.ts lines 57-62, 87-92, 118-123). -/
def firstInlineData : List GenPart → Option String
  | [] => none
  | .inlineData d :: _ => some ("data:image/png;base64," ++ d)
  | .textPart _ :: rest => firstInlineData rest

/-- The outcome of one awaited external generateContent call: the promise
either rejects with an error or resolves with a parts list. -/
inductive CallOutcome where
  | threw (e : String)
  | returned (parts : List GenPart)
deriving DecidableEq, Repr

/-- One variation sub-call (the async closure of generateVariations,
src/lib/gemini-api.ts lines 111-124): a rejection propagates; a response is
scanned for its first inline image, yielding null when there is none. -/
def variationCallResult : CallOutcome → Except String (Option String)
  | .threw e => .error e
  | .returned parts => .ok (firstInlineData parts)

/-- Promise.all: rejects as soon as any of the joined promises rejects,
otherwise resolves with the list of all resolved values. -/
def promiseAll : List (Except String (Option String)) →
    Except String (List (Option String))
  | [] => .ok []
  | .error e :: _ => .error e
  | .ok v :: rest => (promiseAll rest).map (v :: ·)

/-- `generateVariations` (src/lib/gemini-api.ts lines 102-128): dispatches the
sub-calls, joins them with `Promise.all(promises)`, then filters the resolved
values to the non-null images.  The outcomes of the independent external calls
are the function's oracle input. -/
def generateVariations (outcomes : List CallOutcome) : Except String (List String) :=
  (promiseAll (outcomes.map variationCallResult)).map (·.filterMap id)

/-- Case-conversion of a message as done by
`error.message.toLowerCase()` in src/lib/error-handler.ts. -/
def lowerChars (s : String) : List Char :=
  s.toList.map Char.toLower

/-- Substring test, modelling JS `String.prototype.includes`. -/
def containsSub (pat : List Char) : List Char → Bool
  | [] => pat.isEmpty
  | c :: rest => pat.isPrefixOf (c :: rest) || containsSub pat rest

/-- `handleApiError` (src/lib/error-handler.ts): map the lowercased message of
a thrown Error to a user-facing message by substring checks, falling back to a
generic message. -/
def handleApiError (msg : String) : String :=
  let m := lowerChars msg
  if containsSub ("api key not valid".toList) m then
    "The Gemini API key is invalid or missing. Please check your configuration."
  else if containsSub ("safety".toList) m || containsSub ("blocked".toList) m then
    "Your request was blocked due to the safety policy. Please modify your prompt and try again."
  else if containsSub ("quota".toList) m then
    "You have exceeded your API quota. Please check your Google AI Studio account."
  else if containsSub ("timeout".toList) m then
    "The request to the AI model timed out. Please try again in a few moments."
  else if containsSub ("failed to fetch".toList) m then
    "A network error occurred. Please check your internet connection and try again."
  else
    "An unexpected error occurred. Please try again."

/-- The state held by the variation form action
(src/components/shared/VariationGenerator.tsx lines 15-18). -/
structure VariationFormState where
  images : List String
  error : Option String
deriving DecidableEq, Repr

/-- `generateVariationsAction` (src/components/shared/VariationGenerator.tsx
lines 26-43): requires a base image, calls `generateVariations(base, neg, 2)`
(two sub-call outcomes), reports the joined images on non-empty success, the
"no variations" message on an empty join, and `handleApiError` on a thrown
error. -/
def generateVariationsAction (prev : VariationFormState)
    (baseImage negativePrompt : String) (o1 o2 : CallOutcome) : VariationFormState :=
  if baseImage = "" then { prev with error := some "Base image is missing." }
  else
    match generateVariations [o1, o2] with
    | .ok results =>
        if results.length > 0 then ⟨results, none⟩
        else ⟨[], some "The model did not return any variations. Please try again."⟩
    | .error e => ⟨[], some (handleApiError e)⟩

/-- C2 counterexample: with count 2, when the first external call rejects and
the second resolves with an image, the claim demands the one-element list of
the successful image and no error; the code joins with `Promise.all`, so the
single rejection makes the whole invocation an error with no images. -/
theorem variation_rejection_not_partial_cex :
    generateVariationsAction ⟨[], none⟩ "img" "" (.threw "boom")
        (.returned [.inlineData "OK"]) =
      ⟨[], some "An unexpected error occurred. Please try again."⟩ ∧
    (generateVariationsAction ⟨[], none⟩ "img" "" (.threw "boom")
        (.returned [.inlineData "OK"])).images ≠ ["data:image/png;base64,OK"] ∧
    (generateVariationsAction ⟨[], none⟩ "img" "" (.threw "boom")
        (.returned [.inlineData "OK"])).error ≠ none := by
  refine ⟨?_, by decide, by decide⟩
  decide

/-- C2 as amended: partial success is tolerated only for a sub-call that
resolves without an image: with count 2, if one call resolves with no image
and the other resolves with an image, the action yields exactly the one
successful image and no error (in either order); if either call rejects, the
action surfaces an error with no images even if the other call produced an
image; if both calls resolve but neither yields an image, the "no variations"
message is surfaced. -/
theorem variation_partial_success_amended (prev : VariationFormState)
    (neg d e : String) :
    generateVariationsAction prev "base" neg (.returned []) (.returned [.inlineData d]) =
      ⟨["data:image/png;base64," ++ d], none⟩ ∧
    generateVariationsAction prev "base" neg (.returned [.inlineData d]) (.returned []) =
      ⟨["data:image/png;base64," ++ d], none⟩ ∧
    generateVariationsAction prev "base" neg (.threw e) (.returned [.inlineData d]) =
      ⟨[], some (handleApiError e)⟩ ∧
    generateVariationsAction prev "base" neg (.returned [.inlineData d]) (.threw e) =
      ⟨[], some (handleApiError e)⟩ ∧
    generateVariationsAction prev "base" neg (.returned []) (.returned []) =
      ⟨[], some "The model did not return any variations. Please try again."⟩ := by
  refine ⟨?_, ?_, ?_, ?_, ?_⟩ <;>
    simp [generateVariationsAction, generateVariations, promiseAll,
      variationCallResult, firstInlineData, Except.map, List.filterMap]

/-! ## Provider aggregator (src/lib/stock-api.ts) -/

/-- Normalized stock image record (src/types.ts, UnifiedStockImage). -/
structure UnifiedStockImage where
  id : String
  alt : String
  photographer : String
  urlSmall : String
  urlLarge : String
  provider : String
deriving DecidableEq, Repr

/-- The value a settled provider promise fulfilled with: the normalizers
return arrays, but the aggregator additionally guards with `Array.isArray`. -/
inductive SettledValue where
  | arr (imgs : List UnifiedStockImage)
  | nonArray
deriving DecidableEq, Repr

/-- A Promise.allSettled slot: fulfilled with a value, or rejected. -/
inductive SettledResult where
  | fulfilled (v : SettledValue)
  | rejected (e : String)
deriving DecidableEq, Repr

/-- The filter predicate of the aggregator:
`result.status === 'fulfilled' && Array.isArray(result.value)`
(src/lib/stock-api.ts line 34). -/
def isFulfilledArray : SettledResult → Bool
  | .fulfilled (.arr _) => true
  | _ => false

/-- The value extraction used by the flatMap on the filtered results
(src/lib/stock-api.ts line 35). -/
def fulfilledValue : SettledResult → List UnifiedStockImage
  | .fulfilled (.arr imgs) => imgs
  | _ => []

/-- `searchAllStockSites` (src/lib/stock-api.ts lines 22-38): the three
provider calls are joined with `Promise.allSettled`, the fulfilled array
results are kept and concatenated.  The settled outcome of each provider call
is the function's oracle input; the function itself never fails. -/
def searchAllStockSites (pexels unsplash pixabay : SettledResult) :
    List UnifiedStockImage :=
  ((([pexels, unsplash, pixabay].filter isFulfilledArray).map fulfilledValue)).flatten

theorem searchAllStockSites_eq_union (r1 r2 r3 : SettledResult) :
    searchAllStockSites r1 r2 r3 =
      fulfilledValue r1 ++ (fulfilledValue r2 ++ fulfilledValue r3) := by
  rcases r1 with (⟨l1⟩ | _) | e1 <;> rcases r2 with (⟨l2⟩ | _) | e2 <;>
    rcases r3 with (⟨l3⟩ | _) | e3 <;>
    simp [searchAllStockSites, isFulfilledArray, fulfilledValue, List.filter]

/-- C3: the aggregate search is the union of the fulfilled providers' results
and never fails; a rejected provider contributes nothing; in particular when
two of the three providers fail, the search returns exactly the third
provider's results. -/
theorem aggregator_partial_failure_tolerant :
    (∀ r1 r2 r3, searchAllStockSites r1 r2 r3 =
      fulfilledValue r1 ++ (fulfilledValue r2 ++ fulfilledValue r3)) ∧
    (∀ e1 e2 l, searchAllStockSites (.rejected e1) (.rejected e2) (.fulfilled (.arr l)) = l) ∧
    (∀ e1 e3 l, searchAllStockSites (.rejected e1) (.fulfilled (.arr l)) (.rejected e3) = l) ∧
    (∀ e2 e3 l, searchAllStockSites (.fulfilled (.arr l)) (.rejected e2) (.rejected e3) = l) ∧
    (∀ e3 l1 l2, searchAllStockSites (.fulfilled (.arr l1)) (.fulfilled (.arr l2))
      (.rejected e3) = l1 ++ l2) := by
  refine ⟨searchAllStockSites_eq_union, ?_, ?_, ?_, ?_⟩ <;>
    intros <;> simp [searchAllStockSites_eq_union, fulfilledValue]

/-! ## Negative-prompt suggestion (src/lib/gemini-api.ts lines 154-180)

The character-level post-processing is modelled on lists of characters:
trim, strip one leading and one trailing double quote, remove the first
case-insensitive occurrence of "Negative Prompt: ", trim again, and keep at
most the first 200 characters. -/

/-- JS `String.prototype.trim` on a character list. -/
def jsTrim (l : List Char) : List Char :=
  ((l.dropWhile Char.isWhitespace).reverse.dropWhile Char.isWhitespace).reverse

/-- `.replace(/^"|"$/g, '')`: drop a leading double quote if present, then a
trailing double quote of the remainder if present. -/
def stripEdgeQuotes (l : List Char) : List Char :=
  let l1 := match l with
    | '"' :: rest => rest
    | other => other
  match l1.getLast? with
  | some '"' => l1.dropLast
  | _ => l1

/-- The lowercased label removed by `.replace(/Negative Prompt: /i, '')`. -/
def negativePromptLabel : List Char := "negative prompt: ".toList

/-- `.replace(pat, '')` with a case-insensitive literal pattern: remove the
first (leftmost) occurrence of the pattern, compared case-insensitively. -/
def removeFirstCI (pat : List Char) : List Char → List Char
  | [] => []
  | c :: rest =>
      if pat.isPrefixOf ((c :: rest).map Char.toLower) then (c :: rest).drop pat.length
      else c :: removeFirstCI pat rest

/-- The post-processing applied to the model's text
(src/lib/gemini-api.ts lines 173-179): trim, strip edge quotes, drop the
"Negative Prompt: " label, trim, `.slice(0, 200)`. -/
def postprocessNegativeText (raw : List Char) : List Char :=
  (jsTrim (removeFirstCI negativePromptLabel (stripEdgeQuotes (jsTrim raw)))).take 200

/-- `generateNegativePrompt` (src/lib/gemini-api.ts lines 154-180): a
whitespace-only main prompt returns the empty string before any external call
(`if (!mainPrompt.trim()) return ''`); otherwise the external model is called
and its text post-processed.  The Boolean records whether the external call
was dispatched; the model's raw text is the oracle input. -/
def generateNegativePrompt (mainPrompt modelText : List Char) : Bool × List Char :=
  if jsTrim mainPrompt = [] then (false, [])
  else (true, postprocessNegativeText modelText)

/-- C10: the negative-prompt suggestion always returns at most 200 characters,
and a whitespace-only or empty main prompt yields the empty string with no
external call dispatched. -/
theorem negative_prompt_bounded_and_guarded (mainPrompt modelText : List Char) :
    (generateNegativePrompt mainPrompt modelText).2.length ≤ 200 ∧
    (jsTrim mainPrompt = [] →
      generateNegativePrompt mainPrompt modelText = (false, [])) := by
  constructor
  · by_cases h : jsTrim mainPrompt = []
    · simp [generateNegativePrompt, h]
    · simp only [generateNegativePrompt, if_neg h, postprocessNegativeText,
        List.length_take]
      exact Nat.min_le_left _ _
  · intro h
    simp [generateNegativePrompt, h]

/-- Witness for C10: a whitespace-only prompt (one space) with an arbitrary
model text returns the empty string without an external call, and the result
length bound holds. -/
theorem negative_prompt_bounded_and_guarded_witness :
    (generateNegativePrompt [' '] ['x']).2.length ≤ 200 ∧
    jsTrim [' '] = [] ∧
    generateNegativePrompt [' '] ['x'] = (false, []) :=
  ⟨(negative_prompt_bounded_and_guarded [' '] ['x']).1, by decide,
   (negative_prompt_bounded_and_guarded [' '] ['x']).2 (by decide)⟩

/-! ## Mask synthesizer (src/components/shared/AdvancedImageEditor.tsx)

### Out-paint (handleSubmit, lines 179-206)

The expanded canvas is `(origW + left + right, origH + top + bottom)`; it is
filled with the neutral color white, then the original image is drawn at
`(left, top)`.  The mask canvas of the same size is filled white ("paint") and
the rectangle `(left, top, origW, origH)` is filled black ("keep"). -/

/-- A mask pixel: white marks the repaint region, black the preserved one. -/
inductive MaskColor where
  | white
  | black
deriving DecidableEq, Repr

/-- The four non-negative out-paint padding values. -/
structure OutpaintPadding where
  top : Nat
  right : Nat
  bottom : Nat
  left : Nat
deriving DecidableEq, Repr

/-- The all-zero padding. -/
def zeroPadding : OutpaintPadding := ⟨0, 0, 0, 0⟩

/-- `newWidth = origW + padding.left + padding.right` (line 181). -/
def outpaintCanvasWidth (origW : Nat) (p : OutpaintPadding) : Nat :=
  origW + p.left + p.right

/-- `newHeight = origH + padding.top + padding.bottom` (line 182). -/
def outpaintCanvasHeight (origH : Nat) (p : OutpaintPadding) : Nat :=
  origH + p.top + p.bottom

/-- The expanded base canvas as a pixel function: white neutral fill
(line 189-190), with the original image drawn over it at offset
`(padding.left, padding.top)` with its original dimensions (line 192). -/
def outpaintBase {Pix : Type} (whiteFill : Pix) (img : Nat → Nat → Pix)
    (origW origH : Nat) (p : OutpaintPadding) (x y : Nat) : Pix :=
  if p.left ≤ x ∧ x < p.left + origW ∧ p.top ≤ y ∧ y < p.top + origH then
    img (x - p.left) (y - p.top)
  else whiteFill

/-- The out-paint mask as a pixel function: white fill (lines 201-202) with
the black rectangle `(padding.left, padding.top, origW, origH)` drawn over it
(lines 203-204). -/
def outpaintMask (origW origH : Nat) (p : OutpaintPadding) (x y : Nat) : MaskColor :=
  if p.left ≤ x ∧ x < p.left + origW ∧ p.top ≤ y ∧ y < p.top + origH then
    .black
  else .white

/-- C5: the out-paint canvas has size `(w+l+r, h+t+b)`; the mask is black
("keep") exactly on the rectangle `(l, t, w, h)` and white ("paint")
everywhere else; the original image is reproduced unchanged at offset
`(l, t)` of the expanded base; and with all-zero padding the mask degenerates
to "keep" exactly over the original image area rather than erroring. -/
theorem outpaint_canvas_and_mask_spec (origW origH : Nat) (p : OutpaintPadding) :
    (outpaintCanvasWidth origW p = origW + p.left + p.right ∧
      outpaintCanvasHeight origH p = origH + p.top + p.bottom) ∧
    (∀ x y, outpaintMask origW origH p x y = .black ↔
      (p.left ≤ x ∧ x < p.left + origW ∧ p.top ≤ y ∧ y < p.top + origH)) ∧
    (∀ (Pix : Type) (whiteFill : Pix) (img : Nat → Nat → Pix) (x y : Nat),
      x < origW → y < origH →
      outpaintBase whiteFill img origW origH p (p.left + x) (p.top + y) = img x y) ∧
    (∀ (Pix : Type) (whiteFill : Pix) (img : Nat → Nat → Pix) (x y : Nat),
      ¬(p.left ≤ x ∧ x < p.left + origW ∧ p.top ≤ y ∧ y < p.top + origH) →
      outpaintBase whiteFill img origW origH p x y = whiteFill) ∧
    (∀ x y, outpaintMask origW origH zeroPadding x y = .black ↔ (x < origW ∧ y < origH)) := by
  refine ⟨⟨rfl, rfl⟩, ?_, ?_, ?_, ?_⟩
  · intro x y
    constructor
    · intro h
      by_contra hc
      rw [outpaintMask, if_neg hc] at h
      cases h
    · intro h
      rw [outpaintMask, if_pos h]
  · intro Pix whiteFill img x y hx hy
    rw [outpaintBase, if_pos (by omega)]
    congr 1 <;> omega
  · intro Pix whiteFill img x y h
    rw [outpaintBase, if_neg h]
  · intro x y
    constructor
    · intro h
      by_contra hc
      rw [outpaintMask, if_neg (by simp [zeroPadding]; omega)] at h
      cases h
    · intro h
      rw [outpaintMask, if_pos (by simp [zeroPadding]; omega)]

/-- Witness for C5: a 2x2 original with padding (top 1, right 1, bottom 1,
left 1): the original pixel (1, 0) is reproduced at canvas position (2, 1),
that mask position is "keep", and the corner (0, 0) is "paint". -/
theorem outpaint_canvas_and_mask_spec_witness :
    (1 : Nat) < 2 ∧ (0 : Nat) < 2 ∧
    outpaintBase 99 (fun x y => 10 * x + y) 2 2 ⟨1, 1, 1, 1⟩ (1 + 1) (1 + 0) =
      (fun x y => 10 * x + y) 1 0 ∧
    outpaintMask 2 2 ⟨1, 1, 1, 1⟩ 2 1 = .black ∧
    outpaintMask 2 2 ⟨1, 1, 1, 1⟩ 0 0 = .white :=
  ⟨by decide, by decide,
   (outpaint_canvas_and_mask_spec 2 2 ⟨1, 1, 1, 1⟩).2.2.1 Nat 99
     (fun x y => 10 * x + y) 1 0 (by decide) (by decide),
   by decide, by decide⟩

/-! ### In-paint (handleSubmit, lines 155-178)

Strokes are filled circles drawn on the transparent overlay with
`fillStyle = 'rgba(255, 255, 255, 0.7)'` (lines 104-107), alpha-composited
(source-over) onto whatever is already there.  On submit, the overlay is
copied, `source-in` composited with an opaque white fill (which keeps the
overlay's alpha: resulting alpha = 1 * overlay alpha), and that white layer is
drawn source-over onto an opaque black canvas, so each channel of the final
mask pixel is 255 * overlayAlpha. -/

/-- A filled circular stroke: center and radius (brushSize / 2). -/
structure InpaintStroke where
  cx : ℚ
  cy : ℚ
  r : ℚ
deriving DecidableEq, Repr

/-- Whether a stroke's filled disc covers the pixel at (x, y). -/
def strokeCovers (s : InpaintStroke) (x y : ℚ) : Prop :=
  (x - s.cx) ^ 2 + (y - s.cy) ^ 2 ≤ s.r ^ 2

instance (s : InpaintStroke) (x y : ℚ) : Decidable (strokeCovers s x y) := by
  unfold strokeCovers
  infer_instance

/-- The alpha of the stroke fill color rgba(255, 255, 255, 0.7) (line 104). -/
def strokePaintAlpha : ℚ := 7 / 10

/-- The overlay alpha at a pixel after drawing the strokes in order: each
covering stroke source-over composites its 0.7 alpha onto the accumulated
alpha (a' = 0.7 + a * (1 - 0.7)); the overlay starts fully transparent. -/
def overlayAlpha (strokes : List InpaintStroke) (x y : ℚ) : ℚ :=
  strokes.foldl
    (fun a s => if strokeCovers s x y then
        strokePaintAlpha + a * (1 - strokePaintAlpha)
      else a)
    0

/-- The temp canvas (lines 160-167): the overlay is copied and composited
`source-in` with an opaque white fill, so the pixel is white with the
overlay's alpha. -/
def inpaintTempAlpha (strokes : List InpaintStroke) (x y : ℚ) : ℚ :=
  1 * overlayAlpha strokes x y

/-- The final mask channel value (lines 170-176): opaque black fill, then the
white-with-alpha temp layer drawn source-over:
channel = 255 * alpha + 0 * (1 - alpha). -/
def inpaintMaskValue (strokes : List InpaintStroke) (x y : ℚ) : ℚ :=
  255 * inpaintTempAlpha strokes x y + 0 * (1 - inpaintTempAlpha strokes x y)

/-- The base image submitted alongside the in-paint mask is the current image
unmodified (line 156). -/
def inpaintBaseImage (currentImage : String) : String := currentImage

/-- C4 failing input: a pixel covered by a single stroke has overlay alpha
0.7 ≠ 0, yet its mask value is 255 * 0.7 = 178.5, not the pure foreground
255 — the semi-transparent stroke is flattened onto black as a gray level
instead of being thresholded to binary.  The claim's remaining parts do hold
and are recorded here: an untouched pixel is pure background 0, the empty
stroke set yields the all-background mask, and the base image passes through
unmodified. -/
theorem inpaint_mask_not_binary_failing_input :
    overlayAlpha [⟨0, 0, 20⟩] 0 0 ≠ 0 ∧
    inpaintMaskValue [⟨0, 0, 20⟩] 0 0 = 357 / 2 ∧
    (357 / 2 : ℚ) ≠ 255 ∧
    overlayAlpha [⟨0, 0, 20⟩] 100 100 = 0 ∧
    inpaintMaskValue [⟨0, 0, 20⟩] 100 100 = 0 ∧
    inpaintMaskValue [] 0 0 = 0 ∧
    inpaintBaseImage "base" = "base" := by
  refine ⟨?_, ?_, by norm_num, ?_, ?_, ?_, rfl⟩ <;>
    norm_num [inpaintMaskValue, inpaintTempAlpha, overlayAlpha, strokeCovers,
      strokePaintAlpha, List.foldl]

/-! ## Composition mode orchestration
(src/components/composition/CompositionMode.tsx) -/

/-- The component state relevant to template selection: the selected template
(consumed by stage 2), the displayed template preview, and the shared
history. -/
structure CompositionSessionState where
  selectedTemplate : Option String
  displayTemplateImage : Option String
  history : List HistoryItem
deriving DecidableEq, Repr

/-- The stage-1 success effect (CompositionMode.tsx lines 223-238): when the
template form action stores a new image, the effect runs
`setSelectedTemplate(templateState.image)`,
`setDisplayTemplateImage(templateState.image)` and prepends a history entry
truncated to 5. -/
def templateSuccessEffect (image prompt negPrompt aspectRatio : String) (now : Nat)
    (s : CompositionSessionState) : CompositionSessionState :=
  { selectedTemplate := some image
    displayTemplateImage := some image
    history := (⟨now, "template", image, prompt, negPrompt, now, aspectRatio⟩ ::
      s.history).take 5 }

/-- The explicit confirm action (CompositionMode.tsx lines 501-504): the
"Use This Template" button runs `setSelectedTemplate(displayTemplateImage)`. -/
def confirmTemplateSelection (s : CompositionSessionState) : CompositionSessionState :=
  { s with selectedTemplate := s.displayTemplateImage }

/-- C1 counterexample: starting from a session with no selected template, a
successful stage-1 generation already changes `selectedTemplate` to the new
image — the success handler auto-selects instead of leaving the selection to
the explicit confirm action, contradicting the claim that `selectedTemplate`
keeps its prior value (unset) until the user confirms. -/
theorem template_success_changes_selection_cex :
    (templateSuccessEffect "imgP1" "P1" "" "16:9" 1
        ⟨none, none, []⟩).selectedTemplate = some "imgP1" ∧
    (templateSuccessEffect "imgP1" "P1" "" "16:9" 1
        ⟨none, none, []⟩).selectedTemplate ≠
      (⟨none, none, []⟩ : CompositionSessionState).selectedTemplate := by
  refine ⟨rfl, by decide⟩

/-- C1 as amended: a successful stage-1 generation sets both the displayed
template and `selectedTemplate` to the newly generated image (stage-1 success
auto-confirms the selection), and the explicit confirm action sets
`selectedTemplate` to the currently displayed template. -/
theorem template_success_autoselects (image prompt negPrompt aspectRatio : String)
    (now : Nat) (s : CompositionSessionState) :
    (templateSuccessEffect image prompt negPrompt aspectRatio now s).selectedTemplate =
      some image ∧
    (templateSuccessEffect image prompt negPrompt aspectRatio now s).displayTemplateImage =
      some image ∧
    (confirmTemplateSelection s).selectedTemplate = s.displayTemplateImage :=
  ⟨rfl, rfl, rfl⟩

/-! ### Stage-2 final-image action (CompositionMode.tsx lines 136-166) -/

/-- The final-image form-action state (CompositionMode.tsx lines 123-127,
without the promptUsed bookkeeping field). -/
structure FinalImageFormState where
  image : Option String
  error : Option String
deriving DecidableEq, Repr

/-- The style-reference input as seen by the action: no file (absent or
empty), a file whose base64 conversion rejects, or a converted file. -/
inductive StyleRefInput where
  | noFile
  | fileError
  | fileOk (b64 : String)
deriving DecidableEq, Repr

/-- `generateFinalImage` (src/lib/gemini-api.ts lines 33-63): builds the parts
and prompt, makes the single external generateContent call (the oracle
outcome), and scans the response for the first inline image, returning null
when there is none. -/
def generateFinalImage (subjectPrompt templateImage : String)
    (styleReferenceImage : Option String) (negativePrompt : String)
    (call : CallOutcome) : Except String (Option String) :=
  match call with
  | .threw e => .error e
  | .returned parts => .ok (firstInlineData parts)

/-- The action's outcome: whether the external generation call was dispatched,
and the resulting form state. -/
structure FinalActionOutcome where
  calledGenerate : Bool
  state : FinalImageFormState
deriving DecidableEq, Repr

/-- The style reference attached to the external call: the converted base64
when a file was converted, null otherwise. -/
def styleImageOf : StyleRefInput → Option String
  | .fileOk b64 => some b64
  | _ => none

/-- `generateFinalImageAction` (CompositionMode.tsx lines 136-166): an empty
subject prompt or an empty selected template (the hidden input holds '' when
no template is selected, line 525) returns a validation error immediately; a
failing style-reference conversion errors before the call; otherwise the
single external call is dispatched and its outcome mapped to the form
state. -/
def generateFinalImageAction (prev : FinalImageFormState)
    (subjectPrompt negativePrompt selectedTemplate : String)
    (styleRef : StyleRefInput) (call : CallOutcome) : FinalActionOutcome :=
  if subjectPrompt = "" then
    ⟨false, { prev with error := some "Subject prompt is required." }⟩
  else if selectedTemplate = "" then
    ⟨false, { prev with error := some "A template must be selected." }⟩
  else if styleRef = .fileError then
    ⟨false, ⟨none, some "Could not process the style reference image."⟩⟩
  else
    match generateFinalImage subjectPrompt selectedTemplate (styleImageOf styleRef)
        negativePrompt call with
    | .error _ => ⟨true, ⟨none, some "Failed to generate final image."⟩⟩
    | .ok (some img) => ⟨true, ⟨some img, none⟩⟩
    | .ok none =>
        ⟨true, ⟨none, some "The model did not return an image. Try adjusting your prompt."⟩⟩

/-- C6: a stage-2 submission with an empty subject prompt or with no selected
template transitions directly to an error state carrying the validation
message, with no external generation call dispatched; conversely the external
call is dispatched only when the subject prompt is non-empty and a template is
selected. -/
theorem final_submit_validation_gates (prev : FinalImageFormState)
    (subjectPrompt negativePrompt selectedTemplate : String)
    (styleRef : StyleRefInput) (call : CallOutcome) :
    (subjectPrompt = "" →
      generateFinalImageAction prev subjectPrompt negativePrompt selectedTemplate
          styleRef call =
        ⟨false, ⟨prev.image, some "Subject prompt is required."⟩⟩) ∧
    (subjectPrompt ≠ "" → selectedTemplate = "" →
      generateFinalImageAction prev subjectPrompt negativePrompt selectedTemplate
          styleRef call =
        ⟨false, ⟨prev.image, some "A template must be selected."⟩⟩) ∧
    ((generateFinalImageAction prev subjectPrompt negativePrompt selectedTemplate
        styleRef call).calledGenerate = true →
      subjectPrompt ≠ "" ∧ selectedTemplate ≠ "") := by
  refine ⟨?_, ?_, ?_⟩
  · intro h
    rw [generateFinalImageAction, if_pos h]
  · intro h1 h2
    rw [generateFinalImageAction, if_neg h1, if_pos h2]
  · intro hcall
    by_cases h1 : subjectPrompt = ""
    · rw [generateFinalImageAction, if_pos h1] at hcall
      cases hcall
    · by_cases h2 : selectedTemplate = ""
      · rw [generateFinalImageAction, if_neg h1, if_pos h2] at hcall
        cases hcall
      · exact ⟨h1, h2⟩

/-- Witness for C6 at concrete inputs: an empty subject prompt errors without
dispatching, an unset template errors without dispatching, and a dispatched
call implies both inputs were present. -/
theorem final_submit_validation_gates_witness :
    generateFinalImageAction ⟨none, none⟩ "" "" "tmpl" .noFile
        (.returned [.inlineData "OK"]) =
      ⟨false, ⟨none, some "Subject prompt is required."⟩⟩ ∧
    generateFinalImageAction ⟨none, none⟩ "subject" "" "" .noFile
        (.returned [.inlineData "OK"]) =
      ⟨false, ⟨none, some "A template must be selected."⟩⟩ ∧
    (("subject" : String) ≠ "" ∧ ("tmpl" : String) ≠ "") :=
  ⟨(final_submit_validation_gates ⟨none, none⟩ "" "" "tmpl" .noFile
      (.returned [.inlineData "OK"])).1 rfl,
   (final_submit_validation_gates ⟨none, none⟩ "subject" "" "" .noFile
      (.returned [.inlineData "OK"])).2.1 (by decide) rfl,
   (final_submit_validation_gates ⟨none, none⟩ "subject" "" "tmpl" .noFile
      (.returned [.inlineData "OK"])).2.2 (by decide)⟩

end AssetGen
